import Mathlib

/-!
Verification of monitor_numbers.py (a polling utility that samples a numeric
value from a shell command or a file, gates it against an inclusive optional
range, and alerts when the value moves by more than a threshold from the last
reported baseline).

Numeric values are modelled as exact rationals. Each definition below embeds
one function of src/monitor_numbers.py; doc comments name the source lines.
-/

/-- Embeds the first guard of value_in_range (src/monitor_numbers.py line 149):
true exactly when the lower bound is present and the value is strictly below it. -/
def minBoundViolated (value : ℚ) : Option ℚ → Bool
  | some m => decide (value < m)
  | none => false

/-- Embeds the second guard of value_in_range (src/monitor_numbers.py line 151):
true exactly when the upper bound is present and the value is strictly above it. -/
def maxBoundViolated (value : ℚ) : Option ℚ → Bool
  | some m => decide (value > m)
  | none => false

/-- Embeds value_in_range (src/monitor_numbers.py lines 146-153). -/
def value_in_range (value : ℚ) (min_value max_value : Option ℚ) : Bool :=
  if minBoundViolated value min_value then false
  else if maxBoundViolated value max_value then false
  else true

/-- The configuration fields of the monitor relevant to the change detector:
args.min_value, args.max_value and args.threshold (src/monitor_numbers.py
lines 52-74). -/
structure Config where
  min_value : Option ℚ
  max_value : Option ℚ
  threshold : ℚ

/-- Embeds one change-detector transition of the monitor loop
(src/monitor_numbers.py lines 171-182), run on a successfully obtained value.
Returns the new last_value state together with the alert fired, if any,
as an (old, new) pair. -/
def detectStep (cfg : Config) (last_value : Option ℚ) (value : ℚ) :
    Option ℚ × Option (ℚ × ℚ) :=
  if value_in_range value cfg.min_value cfg.max_value = false then
    (none, none)
  else
    match last_value with
    | none => (some value, none)
    | some last =>
      if |value - last| > cfg.threshold then (some value, some (last, value))
      else (some last, none)

/-- Embeds one full iteration of the monitor loop body acting on the state
(src/monitor_numbers.py lines 161-182): when the fetch produced no value the
iteration only sleeps (state untouched, no alert, lines 167-169); otherwise
the change-detector transition runs. -/
def loopStep (cfg : Config) (last_value : Option ℚ) (sample : Option ℚ) :
    Option ℚ × Option (ℚ × ℚ) :=
  match sample with
  | none => (last_value, none)
  | some v => detectStep cfg last_value v

/-- Runs the monitor loop body over a finite list of fetch outcomes, starting
from a given last_value state; returns the final state and the list of alerts
fired, in order (src/monitor_numbers.py lines 156-184, with last_value
initialized to None at line 159 when started from none). -/
def runMonitor (cfg : Config) (state : Option ℚ) :
    List (Option ℚ) → Option ℚ × List (ℚ × ℚ)
  | [] => (state, [])
  | sample :: rest =>
    let s := loopStep cfg state sample
    let r := runMonitor cfg s.1 rest
    (r.1, s.2.toList ++ r.2)

/-- The whitespace characters on which Python str.split() with no separator
partitions a string (the ASCII ones; the rarer Unicode whitespace Python also
splits on occurs in no claim). -/
def pyIsSpace (c : Char) : Bool :=
  c == ' ' || c == '\t' || c == '\n' || c == '\r' || c == '\x0b' || c == '\x0c'

/-- Embeds the comma normalization content.replace(",", " ") applied before
tokenizing (src/monitor_numbers.py lines 96 and 120); on the one-character
pattern this is a character map. -/
def replaceCommas (s : String) : String :=
  String.mk (s.data.map fun c => if c = ',' then ' ' else c)

/-- Splits a character list on runs of whitespace, dropping empty pieces, the
way Python str.split() with no separator does; the second argument accumulates
the current token in reverse. -/
def splitWsAux : List Char → List Char → List (List Char)
  | [], acc => if acc.isEmpty then [] else [acc.reverse]
  | c :: cs, acc =>
    if pyIsSpace c then
      if acc.isEmpty then splitWsAux cs [] else acc.reverse :: splitWsAux cs []
    else
      splitWsAux cs (c :: acc)

/-- The token list both fetchers iterate over, from
content.replace(",", " ").split() (src/monitor_numbers.py lines 96 and 120). -/
def tokensOf (blob : String) : List String :=
  (splitWsAux (replaceCommas blob).data []).map String.mk

/-- Numeric value of a run of decimal digit characters. -/
def digitsToNat (ds : List Char) : ℕ :=
  ds.foldl (fun a c => 10 * a + (c.toNat - 48)) 0

/-- Parses what follows the exponent marker of a Python float literal: an
optional sign then a nonempty digit run that must consume the whole rest of
the token. -/
def parseExponentDigits : List Char → Option ℤ
  | '+' :: r => if !r.isEmpty && r.all Char.isDigit then some (digitsToNat r) else none
  | '-' :: r => if !r.isEmpty && r.all Char.isDigit then some (-(digitsToNat r : ℤ)) else none
  | r => if !r.isEmpty && r.all Char.isDigit then some (digitsToNat r) else none

/-- Recognizes a whole token as a Python float literal: an optional sign, a
digit run optionally containing one decimal point (digits may be absent on one
side of the point but not on both), and an optional exponent, with nothing
left over. Returns the pair (n, k) of integers such that the literal denotes
the rational n times 10 to the k: n is the signed mantissa read without its
decimal point, and k is the written exponent minus the number of fractional
digits. The special forms inf, infinity and nan (not representable as
rationals) and underscore digit separators are outside this model; no claim
involves them. -/
def pyFloatParse (cs : List Char) : Option (ℤ × ℤ) :=
  let sgn : ℤ × List Char :=
    match cs with
    | '+' :: r => (1, r)
    | '-' :: r => (-1, r)
    | r => (1, r)
  let ip := sgn.2.takeWhile Char.isDigit
  let r1 := sgn.2.dropWhile Char.isDigit
  let sig : Option (List Char × ℕ × List Char) :=
    match r1 with
    | '.' :: r2 =>
      let fp := r2.takeWhile Char.isDigit
      let r3 := r2.dropWhile Char.isDigit
      if ip.isEmpty && fp.isEmpty then none else some (ip ++ fp, fp.length, r3)
    | _ => if ip.isEmpty then none else some (ip, 0, r1)
  match sig with
  | none => none
  | some (mant, flen, rest) =>
    match rest with
    | [] => some (sgn.1 * digitsToNat mant, -(flen : ℤ))
    | e :: r2 =>
      if e == 'e' || e == 'E' then
        match parseExponentDigits r2 with
        | some k => some (sgn.1 * digitsToNat mant, k - flen)
        | none => none
      else none

/-- Models the float(token) call of the extraction loops
(src/monitor_numbers.py lines 98 and 122): the token's value when it parses as
a Python float literal, none when float raises ValueError. -/
def pyFloat? (token : String) : Option ℚ :=
  (pyFloatParse token.data).map fun p => (p.1 : ℚ) * (10:ℚ) ^ p.2

/-- Embeds the extraction loop shared by both fetchers (src/monitor_numbers.py
lines 96-100 and 120-124): try each token left to right, return the first that
parses as a float. -/
def firstFloat : List String → Option ℚ
  | [] => none
  | t :: ts =>
    match pyFloat? t with
    | some v => some v
    | none => firstFloat ts

/-- The Value Extractor: the first float-parseable whitespace/comma-delimited
token of a text blob, if any (src/monitor_numbers.py lines 96-105 and
120-127). -/
def extract_value (blob : String) : Option ℚ :=
  firstFloat (tokensOf blob)

/-- Outcome of one path.read_text call (src/monitor_numbers.py line 112): the
file's contents, or one of the two failures the reader handles. -/
inductive FileReadResult where
  | content (s : String)
  | notFound
  | ioError

/-- Outcome of one source acquisition: a sampled value, a handled failure
(reported to the error channel, after which the loop sleeps and retries), or
an unhandled exception that escapes the loop. -/
inductive FetchResult where
  | sample (v : ℚ)
  | failure
  | crash
deriving DecidableEq

/-- Embeds fetch_value_from_file (src/monitor_numbers.py lines 108-127) as the
monitor loop calls it, with args.file an optional path: with a present path,
the two handled read failures and a failed extraction all report failure; with
an absent path, the attribute access path.read_text on None raises an
AttributeError that the FileNotFoundError/OSError handlers do not catch,
modelled as crash. The filesystem is modelled as a map from paths to read
outcomes. -/
def fetch_value_from_file (path : Option String) (fs : String → FileReadResult) :
    FetchResult :=
  match path with
  | none => FetchResult.crash
  | some p =>
    match fs p with
    | FileReadResult.notFound => FetchResult.failure
    | FileReadResult.ioError => FetchResult.failure
    | FileReadResult.content s =>
      match extract_value s with
      | some v => FetchResult.sample v
      | none => FetchResult.failure

/-- Embeds fetch_value_from_command (src/monitor_numbers.py lines 79-105),
with the shell modelled as a map from the command string to an exit code and
captured stdout: a nonzero exit code or a failed extraction reports failure. -/
def fetch_value_from_command (command : String) (shell : String → ℕ × String) :
    FetchResult :=
  if (shell command).1 ≠ 0 then FetchResult.failure
  else
    match extract_value (shell command).2 with
    | some v => FetchResult.sample v
    | none => FetchResult.failure

/-- Python truthiness of args.command in the dispatch test if args.command:
(src/monitor_numbers.py line 162): truthy exactly for a present, nonempty
string. -/
def commandTruthy : Option String → Bool
  | none => false
  | some c => !(c == "")

/-- Embeds the source dispatch of one loop iteration (src/monitor_numbers.py
lines 162-165): the command branch runs when args.command is truthy, otherwise
the file branch runs on args.file. The inner none case of the command branch
is unreachable, since commandTruthy none is false. -/
def acquireSample (command : Option String) (file : Option String)
    (shell : String → ℕ × String) (fs : String → FileReadResult) : FetchResult :=
  if commandTruthy command then
    match command with
    | some c => fetch_value_from_command c shell
    | none => FetchResult.failure
  else
    fetch_value_from_file file fs

/-- Claim C1: the change-detector transition on a successfully obtained value v
behaves exactly as specified: out-of-range resets to no baseline with no alert;
in-range with no baseline silently sets the baseline to v; in-range with
baseline b fires an alert (old=b, new=v) and moves the baseline to v exactly
when abs (v - b) strictly exceeds the threshold, and otherwise leaves state and
alert untouched. -/
theorem C1_change_detector_cases (cfg : Config) (s : Option ℚ) (b v : ℚ) :
    (value_in_range v cfg.min_value cfg.max_value = false →
      detectStep cfg s v = (none, none))
  ∧ (value_in_range v cfg.min_value cfg.max_value = true →
      detectStep cfg none v = (some v, none))
  ∧ (value_in_range v cfg.min_value cfg.max_value = true →
      |v - b| > cfg.threshold →
      detectStep cfg (some b) v = (some v, some (b, v)))
  ∧ (value_in_range v cfg.min_value cfg.max_value = true →
      ¬(|v - b| > cfg.threshold) →
      detectStep cfg (some b) v = (some b, none)) := by
  refine ⟨fun h => ?_, fun h => ?_, fun h h2 => ?_, fun h h2 => ?_⟩
  · simp [detectStep, h]
  · simp [detectStep, h]
  · simp [detectStep, h, h2]
  · simp [detectStep, h, h2]

/-- Witness for C1 at concrete inputs covering all four transition cases. -/
theorem C1_witness :
    detectStep ⟨some 0, some 1, 1⟩ (some 0) 5 = (none, none)
  ∧ detectStep ⟨none, none, 1⟩ none 5 = (some 5, none)
  ∧ detectStep ⟨none, none, 1⟩ (some 0) 5 = (some 5, some (0, 5))
  ∧ detectStep ⟨none, none, 1⟩ (some 0) 0 = (some 0, none) :=
  ⟨(C1_change_detector_cases ⟨some 0, some 1, 1⟩ (some 0) 0 5).1
      (by norm_num [value_in_range, minBoundViolated, maxBoundViolated]),
   (C1_change_detector_cases ⟨none, none, 1⟩ none 0 5).2.1
      (by simp [value_in_range, minBoundViolated, maxBoundViolated]),
   (C1_change_detector_cases ⟨none, none, 1⟩ (some 0) 0 5).2.2.1
      (by simp [value_in_range, minBoundViolated, maxBoundViolated])
      (by rw [sub_zero, abs_of_nonneg] <;> norm_num),
   (C1_change_detector_cases ⟨none, none, 1⟩ (some 0) 0 0).2.2.2
      (by simp [value_in_range, minBoundViolated, maxBoundViolated])
      (by rw [sub_zero, abs_of_nonneg] <;> norm_num)⟩

/-- Claim C4: the range gate is false when the lower bound is present and the
value is strictly below it, false when the upper bound is present and the value
is strictly above it, and true otherwise; in particular it is always true with
both bounds absent, and a value equal to a present bound is in range. -/
theorem C4_range_gate (v : ℚ) (lo hi : Option ℚ) :
    (∀ m : ℚ, lo = some m → v < m → value_in_range v lo hi = false)
  ∧ (∀ m : ℚ, hi = some m → m < v → value_in_range v lo hi = false)
  ∧ (minBoundViolated v lo = false → maxBoundViolated v hi = false →
      value_in_range v lo hi = true)
  ∧ value_in_range v none none = true
  ∧ value_in_range v (some v) none = true
  ∧ value_in_range v none (some v) = true := by
  refine ⟨fun m hm hv => ?_, fun m hm hv => ?_, fun h1 h2 => ?_, ?_, ?_, ?_⟩
  · subst hm
    simp [value_in_range, minBoundViolated, hv]
  · subst hm
    cases hmin : minBoundViolated v lo <;>
      simp [value_in_range, hmin, maxBoundViolated, hv]
  · simp [value_in_range, h1, h2]
  · simp [value_in_range, minBoundViolated, maxBoundViolated]
  · simp [value_in_range, minBoundViolated, maxBoundViolated]
  · simp [value_in_range, minBoundViolated, maxBoundViolated]

/-- Witness for C4 at concrete inputs: a value below a present minimum and one
above a present maximum are rejected; a value inside a bounded range, a value
with no bounds, and boundary-equal values are accepted. -/
theorem C4_witness :
    value_in_range 5 (some 10) none = false
  ∧ value_in_range 5 none (some 3) = false
  ∧ value_in_range 5 (some 3) (some 10) = true
  ∧ value_in_range 5 none none = true
  ∧ value_in_range 5 (some 5) none = true :=
  ⟨(C4_range_gate 5 (some 10) none).1 10 rfl (by norm_num),
   (C4_range_gate 5 none (some 3)).2.1 3 rfl (by norm_num),
   (C4_range_gate 5 (some 3) (some 10)).2.2.1
      (by norm_num [minBoundViolated])
      (by norm_num [maxBoundViolated]),
   (C4_range_gate 5 none none).2.2.2.1,
   (C4_range_gate 5 (some 5) none).2.2.2.2.1⟩

/-- Claim C8: an inverted range (both bounds present with min greater than max)
rejects every value. -/
theorem C8_inverted_range (v lo hi : ℚ) (h : hi < lo) :
    value_in_range v (some lo) (some hi) = false := by
  by_cases hv : v < lo
  · simp [value_in_range, minBoundViolated, hv]
  · have hgt : hi < v := lt_of_lt_of_le h (not_lt.mp hv)
    simp [value_in_range, minBoundViolated, maxBoundViolated, hv, hgt]

/-- Witness for C8: the inverted range (min 10, max 3) rejects the value 5. -/
theorem C8_witness : value_in_range 5 (some 10) (some 3) = false :=
  C8_inverted_range 5 10 3 (by norm_num)

/-- Claim C9: an iteration whose fetch yields no sample leaves the loop state
exactly as it was and fires no alert, while an out-of-range sample resets the
state to none (also without an alert). -/
theorem C9_failed_fetch_frame (cfg : Config) (s : Option ℚ) :
    loopStep cfg s none = (s, none)
  ∧ (∀ u : ℚ, value_in_range u cfg.min_value cfg.max_value = false →
      loopStep cfg s (some u) = (none, none)) :=
  ⟨rfl, fun u hu => by simp [loopStep, detectStep, hu]⟩

/-- Witness for C9: with an established baseline 4, a failed fetch preserves
the baseline and an out-of-range sample 20 clears it. -/
theorem C9_witness :
    loopStep ⟨some 0, some 10, 1⟩ (some 4) none = (some 4, none)
  ∧ loopStep ⟨some 0, some 10, 1⟩ (some 4) (some 20) = (none, none) :=
  ⟨(C9_failed_fetch_frame ⟨some 0, some 10, 1⟩ (some 4)).1,
   (C9_failed_fetch_frame ⟨some 0, some 10, 1⟩ (some 4)).2 20
      (by norm_num [value_in_range, minBoundViolated, maxBoundViolated])⟩

/-- A run of the loop whose fetches are all failures or out-of-range samples,
started with no baseline, keeps no baseline and fires no alert, so a following
run is unaffected. -/
theorem runMonitor_bad_skipped (cfg : Config) (mid rest : List (Option ℚ))
    (hmid : ∀ w : ℚ, some w ∈ mid →
      value_in_range w cfg.min_value cfg.max_value = false) :
    runMonitor cfg none (mid ++ rest) = runMonitor cfg none rest := by
  induction mid with
  | nil => rfl
  | cons w mid ih =>
    have hstep : loopStep cfg none w = (none, none) := by
      cases w with
      | none => rfl
      | some x =>
        have hx := hmid x (by simp)
        simp [loopStep, detectStep, hx]
    have ih2 := ih fun x hx => hmid x (by simp [hx])
    simp [runMonitor, hstep, ih2]

/-- Claim C6: from any state, after an out-of-range sample the state is reset
to no baseline, and the first in-range sample that follows (any number of
failed fetches or further out-of-range samples in between) fires no alert,
however far it lies from the pre-exit baseline: the whole stretch produces no
alert, and the re-entry value silently becomes the new baseline. -/
theorem C6_silent_reentry (cfg : Config) (s : Option ℚ) (u : ℚ)
    (mid : List (Option ℚ)) (v : ℚ)
    (hu : value_in_range u cfg.min_value cfg.max_value = false)
    (hmid : ∀ w : ℚ, some w ∈ mid →
      value_in_range w cfg.min_value cfg.max_value = false)
    (hv : value_in_range v cfg.min_value cfg.max_value = true) :
    runMonitor cfg s (some u :: (mid ++ [some v])) = (some v, []) := by
  have hmid2 := runMonitor_bad_skipped cfg mid [some v] hmid
  simp [runMonitor, loopStep, detectStep, hu, hv, hmid2]

/-- Witness for C6: baseline 5 inside range [0, 10]; the sample 20 exits the
range, a failed fetch and the out-of-range sample 50 follow, and re-entry at 3
(far from 5) sets the baseline silently with no alert in the whole stretch. -/
theorem C6_witness :
    runMonitor ⟨some 0, some 10, 1⟩ (some 5)
      (some 20 :: ([none, some 50] ++ [some 3])) = (some 3, []) :=
  C6_silent_reentry ⟨some 0, some 10, 1⟩ (some 5) 20 [none, some 50] 3
    (by norm_num [value_in_range, minBoundViolated, maxBoundViolated])
    (by
      intro w hw
      simp at hw
      subst hw
      norm_num [value_in_range, minBoundViolated, maxBoundViolated])
    (by norm_num [value_in_range, minBoundViolated, maxBoundViolated])

/-- With a nonnegative threshold, resampling the value already held as the
baseline changes nothing and fires no alert, over any number of repetitions. -/
theorem runMonitor_repeat_stable (cfg : Config) (v : ℚ)
    (hthr : 0 ≤ cfg.threshold)
    (hv : value_in_range v cfg.min_value cfg.max_value = true) :
    ∀ n : ℕ, runMonitor cfg (some v) (List.replicate n (some v)) = (some v, []) := by
  intro n
  induction n with
  | zero => rfl
  | succ m ih =>
    have hstep : loopStep cfg (some v) (some v) = (some v, none) := by
      simp [loopStep, detectStep, hv, sub_self, abs_zero, hthr.not_lt]
    simp [List.replicate_succ, runMonitor, hstep, ih]

/-- Claim C7: with a nonnegative threshold, a sequence of identical in-range
samples never fires an alert; the first occurrence silently sets the baseline
and every later occurrence leaves the state unchanged. -/
theorem C7_identical_samples_silent (cfg : Config) (v : ℚ) (n : ℕ)
    (hthr : 0 ≤ cfg.threshold)
    (hv : value_in_range v cfg.min_value cfg.max_value = true) :
    runMonitor cfg none (List.replicate n (some v))
      = (if n = 0 then none else some v, []) := by
  cases n with
  | zero => rfl
  | succ m =>
    have hstep : loopStep cfg none (some v) = (some v, none) := by
      simp [loopStep, detectStep, hv]
    simp [List.replicate_succ, runMonitor, hstep,
      runMonitor_repeat_stable cfg v hthr hv m]

/-- Witness for C7: three identical samples of 7 with threshold 0 and no
bounds produce no alert and end with baseline 7. -/
theorem C7_witness :
    runMonitor ⟨none, none, 0⟩ none (List.replicate 3 (some 7)) = (some 7, []) := by
  have h := C7_identical_samples_silent ⟨none, none, 0⟩ 7 3 (le_refl 0) rfl
  simpa using h

/-- Claim C5: over the in-range samples 10, 10.05, 10.4 (as exact rationals)
with threshold 0.3 and no bounds, starting with no baseline, the run fires
exactly one alert, (old 10, new 10.4): the first sample sets the baseline
silently, the second differs by 0.05 and leaves the baseline at 10, and the
third differs by 0.4 from the still-current baseline 10, fires the alert and
moves the baseline to 10.4. -/
theorem C5_threshold_scenario :
    runMonitor ⟨none, none, 3/10⟩ none [some 10, some (201/20), some (52/5)]
      = (some (52/5), [(10, 52/5)])
  ∧ detectStep ⟨none, none, 3/10⟩ none 10 = (some 10, none)
  ∧ detectStep ⟨none, none, 3/10⟩ (some 10) (201/20) = (some 10, none)
  ∧ detectStep ⟨none, none, 3/10⟩ (some 10) (52/5)
      = (some (52/5), some (10, 52/5)) := by
  have h1 : detectStep ⟨none, none, 3/10⟩ none 10 = (some 10, none) := by
    simp [detectStep, value_in_range, minBoundViolated, maxBoundViolated]
  have h2 : detectStep ⟨none, none, 3/10⟩ (some 10) (201/20) = (some 10, none) := by
    norm_num [detectStep, value_in_range, minBoundViolated, maxBoundViolated]
    rw [abs_of_nonneg] <;> norm_num
  have h3 : detectStep ⟨none, none, 3/10⟩ (some 10) (52/5)
      = (some (52/5), some (10, 52/5)) := by
    norm_num [detectStep, value_in_range, minBoundViolated, maxBoundViolated]
    rw [abs_of_nonneg] <;> norm_num
  refine ⟨?_, h1, h2, h3⟩
  simp [runMonitor, loopStep, h1, h2, h3]

/-- The extraction loop yields nothing exactly when no token parses as a
float. -/
theorem firstFloat_eq_none_iff (ts : List String) :
    firstFloat ts = none ↔ ∀ t ∈ ts, pyFloat? t = none := by
  induction ts with
  | nil => simp [firstFloat]
  | cons t ts ih =>
    cases h : pyFloat? t with
    | none => simp [firstFloat, h, ih]
    | some v => simp [firstFloat, h]

/-- The extraction loop yields x exactly when some token parses to x and every
token before it fails to parse. -/
theorem firstFloat_eq_some_iff (ts : List String) (x : ℚ) :
    firstFloat ts = some x ↔
      ∃ pre t post, ts = pre ++ t :: post
        ∧ (∀ u ∈ pre, pyFloat? u = none) ∧ pyFloat? t = some x := by
  induction ts with
  | nil =>
    constructor
    · intro he
      exact absurd he (by simp [firstFloat])
    · rintro ⟨pre, t, post, heq, -, -⟩
      exact absurd heq.symm (by simp)
  | cons hd tl ih =>
    cases h : pyFloat? hd with
    | some v =>
      have hf : firstFloat (hd :: tl) = some v := by simp [firstFloat, h]
      constructor
      · intro he
        rw [hf] at he
        exact ⟨[], hd, tl, rfl, by simp, by rw [h, Option.some.inj he]⟩
      · rintro ⟨pre, t, post, heq, hpre, ht⟩
        cases pre with
        | nil =>
          simp at heq
          obtain ⟨h1, h2⟩ := heq
          rw [hf]
          rw [← h1, h] at ht
          exact ht
        | cons p ps =>
          simp at heq
          obtain ⟨h1, h2⟩ := heq
          have hp := hpre p (by simp)
          rw [← h1, h] at hp
          simp at hp
    | none =>
      have hf : firstFloat (hd :: tl) = firstFloat tl := by simp [firstFloat, h]
      rw [hf, ih]
      constructor
      · rintro ⟨pre, t, post, heq, hpre, ht⟩
        refine ⟨hd :: pre, t, post, by rw [heq]; rfl, fun u hu => ?_, ht⟩
        rcases List.mem_cons.mp hu with h1 | h1
        · rw [h1]
          exact h
        · exact hpre u h1
      · rintro ⟨pre, t, post, heq, hpre, ht⟩
        cases pre with
        | nil =>
          simp at heq
          obtain ⟨h1, h2⟩ := heq
          rw [← h1, h] at ht
          simp at ht
        | cons p ps =>
          simp at heq
          obtain ⟨h1, h2⟩ := heq
          exact ⟨ps, t, post, h2, fun u hu => hpre u (by simp [hu]), ht⟩

/-- Claim C2: the Value Extractor splits the blob on whitespace and commas,
scans the tokens left to right, and yields the first token that parses as a
float literal, yielding nothing exactly when no token parses. -/
theorem C2_extractor_contract (blob : String) :
    (extract_value blob = none ↔ ∀ t ∈ tokensOf blob, pyFloat? t = none)
  ∧ (∀ x : ℚ, extract_value blob = some x →
      ∃ pre t post, tokensOf blob = pre ++ t :: post
        ∧ (∀ u ∈ pre, pyFloat? u = none) ∧ pyFloat? t = some x)
  ∧ (∀ (pre post : List String) (t : String) (x : ℚ),
      tokensOf blob = pre ++ t :: post → (∀ u ∈ pre, pyFloat? u = none) →
      pyFloat? t = some x → extract_value blob = some x) :=
  ⟨firstFloat_eq_none_iff _,
   fun x hx => (firstFloat_eq_some_iff _ x).mp hx,
   fun pre post t x heq hpre ht =>
     (firstFloat_eq_some_iff (tokensOf blob) x).mpr ⟨pre, t, post, heq, hpre, ht⟩⟩

/-- Witness for C2: a blob with no parseable token yields nothing, and on the
spec's sample blob the first parseable token, the fourth, yields its value. -/
theorem C2_witness :
    extract_value ("no numbers here") = none
  ∧ extract_value ("cpu: 42.5%, mem 10") = some 10 := by
  constructor
  · exact (C2_extractor_contract ("no numbers here")).1.mpr (by decide)
  · refine (C2_extractor_contract ("cpu: 42.5%, mem 10")).2.2
      [("cpu:"), ("42.5%"), ("mem")] [] ("10") 10 (by decide) (by decide) ?_
    have h : pyFloatParse (("10").data) = some (10, 0) := by decide
    simp [pyFloat?, h]

/-- On the blob of the spec's example, the extractor returns 10: the tokens
are cpu:, 42.5%, mem and 10, and the first three do not parse as float
literals (42.5% has a trailing percent sign), while 10 does. -/
theorem extract_value_cpu_blob :
    extract_value ("cpu: 42.5%, mem 10") = some 10 := by
  have ht : tokensOf ("cpu: 42.5%, mem 10")
      = [("cpu:"), ("42.5%"), ("mem"), ("10")] := by decide
  have h1 : pyFloat? ("cpu:") = none := by decide
  have h2 : pyFloat? ("42.5%") = none := by decide
  have h3 : pyFloat? ("mem") = none := by decide
  have h4 : pyFloat? ("10") = some 10 := by
    have h : pyFloatParse (("10").data) = some (10, 0) := by decide
    simp [pyFloat?, h]
  simp [extract_value, ht, firstFloat, h1, h2, h3, h4]

/-- Counterexample to claim C3: on the text cpu: 42.5%, mem 10 the extractor
does not return 42.5, because the token 42.5% (with its percent sign) does not
parse as a float literal; the first parseable token is 10. -/
theorem C3_counterexample :
    ¬ extract_value ("cpu: 42.5%, mem 10") = some (85/2) := by
  rw [extract_value_cpu_blob]
  intro hc
  have h := Option.some.inj hc
  norm_num at h

/-- Claim C3 as amended: on the text cpu: 42.5%, mem 10 the extractor returns
10 (the first whitespace/comma token that parses as a float literal; 42.5%
does not parse), and on the text no numbers here it reports not found. -/
theorem C3_amended :
    extract_value ("cpu: 42.5%, mem 10") = some 10
  ∧ extract_value ("no numbers here") = none :=
  ⟨extract_value_cpu_blob, by decide⟩

/-- Claim C10: with the configured command the empty string and no file path,
the dispatch takes the file branch (args.command is falsy), so the command is
never executed — the result does not depend on the shell — and the file reader
is called with an absent path, hitting the unhandled AttributeError case that
its not-found/OS-error handling does not guard. -/
theorem C10_empty_command_crashes (shell : String → ℕ × String)
    (fs : String → FileReadResult) :
    acquireSample (some ("")) none shell fs = fetch_value_from_file none fs
  ∧ fetch_value_from_file none fs = FetchResult.crash := by
  constructor
  · simp [acquireSample, commandTruthy]
  · rfl
